import Mathlib

/-!
Verification of the pre-assessment webhook receiver
(`src/preassessment_webhook.py`).

The service keeps one process-wide list `received_webhooks` of dictionaries
and exposes four endpoints over it:

* `POST /webhook/preassessment` — validates the JSON body against the
  pydantic model `PreassessmentWebhookPayload` (three required `str`
  fields), appends a dict with a server-assigned timestamp, and returns a
  success response.
* `GET /webhook/received` — returns the list and its length.
* `DELETE /webhook/received` — empties the list, reporting the prior length.
* `GET /health` — returns the current length.

The embedding below represents JSON values by `JsonVal`, request bodies and
stored records by association lists `List (String × JsonVal)` (mirroring the
Python dicts), and `datetime.utcnow()` by a call-indexed clock carried in the
server state: the k-th call to `utcnow` during the process lifetime returns
`time k` and bumps the call counter.  `isoformat` renders an instant to the
string that the code stores and returns.
-/

namespace PreassessmentWebhook

/-- A JSON scalar value, as far as the payload validation needs to look:
pydantic v2 accepts a `str` field only when the JSON value is a string, so
the embedding distinguishes strings from the other scalar shapes. -/
inductive JsonVal where
  | str : String → JsonVal
  | num : Int → JsonVal
  | bool : Bool → JsonVal
  | null : JsonVal
deriving DecidableEq, Repr

/-- A JSON object (a request body, or a stored webhook dict), as an
association list of field names to values — the shape of the Python dict
built at lines 78–83 of the source. -/
abbrev JsonObj := List (String × JsonVal)

/-- The pydantic model of the source (lines 21–25): the three required
string fields of a valid payload. -/
structure PreassessmentWebhookPayload where
  organization_id : String
  preassessment_id : String
  regulation_id : String
deriving DecidableEq, Repr

/-- The required field names of `PreassessmentWebhookPayload`, in
declaration order. -/
def requiredFields : List String :=
  ["organization_id", "preassessment_id", "regulation_id"]

/-- The whole observable state of the service process: the module-level
list `received_webhooks` (line 46) plus the clock behind `datetime.utcnow()`.
`time k` is the instant returned by the k-th `utcnow` call of the process;
`calls` counts the calls made so far. -/
structure ServerState where
  received_webhooks : List JsonObj
  time : Nat → Nat
  calls : Nat

/-- One call to `datetime.utcnow()`: returns the current instant and
advances the call counter. -/
def utcnow (st : ServerState) : Nat × ServerState :=
  (st.time st.calls, { st with calls := st.calls + 1 })

/-- `datetime.isoformat()`: renders an instant as the string the code
stores and returns. -/
def isoformat (t : Nat) : String := toString t

/-- Pydantic validation of one required `str` field: the field must be
present in the body and hold a JSON string (any string, the empty string
included); every other shape is a validation failure. -/
def validateStr (body : JsonObj) (name : String) : Option String :=
  match body.lookup name with
  | some (JsonVal.str s) => some s
  | _ => none

/-- FastAPI's request-body validation against `PreassessmentWebhookPayload`:
either the parsed payload, or the list of required fields that failed
(missing or wrong-typed), in declaration order. -/
def parsePayload (body : JsonObj) : Except (List String) PreassessmentWebhookPayload :=
  match validateStr body "organization_id", validateStr body "preassessment_id",
        validateStr body "regulation_id" with
  | some o, some pa, some r => Except.ok ⟨o, pa, r⟩
  | _, _, _ =>
      Except.error (requiredFields.filter (fun n => (validateStr body n).isNone))

/-- The dict built at lines 78–83 of the source for a validated payload and
the instant `t` drawn at line 79. -/
def webhook_data (payload : PreassessmentWebhookPayload) (t : Nat) : JsonObj :=
  [("timestamp", JsonVal.str (isoformat t)),
   ("organization_id", JsonVal.str payload.organization_id),
   ("preassessment_id", JsonVal.str payload.preassessment_id),
   ("regulation_id", JsonVal.str payload.regulation_id)]

/-- The 200 response body of a successful POST (lines 91–100). -/
structure SuccessResponse where
  status : String
  message : String
  received_at : String
  payload : PreassessmentWebhookPayload
deriving DecidableEq, Repr

/-- The handler body of `POST /webhook/preassessment` on a payload that
already passed validation (lines 68–100, success path).  It makes three
`utcnow` calls in source order: line 72 (the log line), line 79 (the stored
timestamp), line 94 (the `received_at` of the response). -/
def receive_preassessment_webhook (payload : PreassessmentWebhookPayload)
    (st : ServerState) : SuccessResponse × ServerState :=
  let logCall := utcnow st
  let storeCall := utcnow logCall.2
  let record := webhook_data payload storeCall.1
  let st3 : ServerState :=
    { storeCall.2 with
      received_webhooks := storeCall.2.received_webhooks ++ [record] }
  let respCall := utcnow st3
  ({ status := "success",
     message := "Webhook received successfully",
     received_at := isoformat respCall.1,
     payload := payload }, respCall.2)

/-- The three response shapes of `POST /webhook/preassessment`: 200 with the
success body, 422 with the failed fields, or 500 with the
`HTTPException` detail of lines 104–107. -/
inductive PostResponse where
  | success : SuccessResponse → PostResponse
  | validationError : List String → PostResponse
  | serverError : String → PostResponse
deriving DecidableEq, Repr

/-- The full endpoint `POST /webhook/preassessment`: FastAPI validates the
body before the handler runs; a validation failure returns 422 and never
reaches the handler, so the state is untouched. -/
def post_preassessment (body : JsonObj) (st : ServerState) :
    PostResponse × ServerState :=
  match parsePayload body with
  | Except.error _ =>
      (PostResponse.validationError
        (requiredFields.filter (fun n => (validateStr body n).isNone)), st)
  | Except.ok payload =>
      let r := receive_preassessment_webhook payload st
      (PostResponse.success r.1, r.2)

/-- Where inside the `try` block of lines 68–101 an unexpected exception is
raised: `beforeAppend` stands for a failure in the logging of lines 69–75
(before the store is touched), `afterAppend` for a failure in lines 87–100
(after `received_webhooks.append` has run). -/
inductive FaultPoint where
  | beforeAppend : FaultPoint
  | afterAppend : FaultPoint
deriving DecidableEq, Repr

/-- The POST handler with an injected unexpected failure, following the
`try`/`except` of lines 68–107: whatever has executed before the exception
is kept (Python performs no rollback), and the `except` branch answers 500
with detail `"Failed to process webhook: " ++ e` (lines 104–107). -/
def receive_webhook_faulty (payload : PreassessmentWebhookPayload)
    (fault : Option FaultPoint) (e : String) (st : ServerState) :
    PostResponse × ServerState :=
  match fault with
  | some FaultPoint.beforeAppend =>
      (PostResponse.serverError ("Failed to process webhook: " ++ e), st)
  | some FaultPoint.afterAppend =>
      let logCall := utcnow st
      let storeCall := utcnow logCall.2
      let record := webhook_data payload storeCall.1
      let st3 : ServerState :=
        { storeCall.2 with
          received_webhooks := storeCall.2.received_webhooks ++ [record] }
      (PostResponse.serverError ("Failed to process webhook: " ++ e), st3)
  | none =>
      let r := receive_preassessment_webhook payload st
      (PostResponse.success r.1, r.2)

/-- The 200 response body of `GET /webhook/received` (lines 112–115). -/
structure ReceivedResponse where
  total_received : Nat
  webhooks : List JsonObj
deriving DecidableEq, Repr

/-- The endpoint `GET /webhook/received` (lines 109–115). -/
def get_received_webhooks (st : ServerState) : ReceivedResponse × ServerState :=
  ({ total_received := st.received_webhooks.length,
     webhooks := st.received_webhooks }, st)

/-- The 200 response body of `DELETE /webhook/received` (lines 124–127). -/
structure ClearResponse where
  status : String
  message : String
deriving DecidableEq, Repr

/-- The endpoint `DELETE /webhook/received` (lines 117–127): counts the
stored records, resets the list to empty, and reports the prior count. -/
def clear_received_webhooks (st : ServerState) : ClearResponse × ServerState :=
  let count := st.received_webhooks.length
  ({ status := "success",
     message := "Cleared " ++ toString count ++ " webhooks" },
   { st with received_webhooks := [] })

/-- The 200 response body of `GET /health` (lines 131–134). -/
structure HealthResponse where
  status : String
  webhooks_received : Nat
deriving DecidableEq, Repr

/-- The endpoint `GET /health` (lines 129–134). -/
def health_check (st : ServerState) : HealthResponse × ServerState :=
  ({ status := "healthy",
     webhooks_received := st.received_webhooks.length }, st)

/-- The states the process can be in: freshly started (empty store, no
`utcnow` call made yet, any clock), or reached from a reachable state by one
request to any endpoint. -/
inductive Reachable : ServerState → Prop where
  | init : ∀ time, Reachable ⟨[], time, 0⟩
  | post : ∀ body st, Reachable st → Reachable (post_preassessment body st).2
  | clear : ∀ st, Reachable st → Reachable (clear_received_webhooks st).2
  | get : ∀ st, Reachable st → Reachable (get_received_webhooks st).2
  | health : ∀ st, Reachable st → Reachable (health_check st).2

/-- A fresh process whose clock ticks 0, 1, 2, …: the concrete state used to
evaluate the theorems on. -/
def st0 : ServerState := ⟨[], fun k => k, 0⟩

/-- A well-formed request body for the demo payload of the docstring. -/
def demoBody : JsonObj :=
  [("organization_id", JsonVal.str "org1"),
   ("preassessment_id", JsonVal.str "pa1"),
   ("regulation_id", JsonVal.str "reg1")]

/-- The demo payload itself. -/
def demoPayload : PreassessmentWebhookPayload := ⟨"org1", "pa1", "reg1"⟩

/-- A second well-formed request body, for the two-POST scenarios. -/
def demoBody2 : JsonObj :=
  [("organization_id", JsonVal.str "org2"),
   ("preassessment_id", JsonVal.str "pa2"),
   ("regulation_id", JsonVal.str "reg2")]

/-- The payload of `demoBody2`. -/
def demoPayload2 : PreassessmentWebhookPayload := ⟨"org2", "pa2", "reg2"⟩

/-- A body that fails validation: two of the three required fields are
missing. -/
def badBody : JsonObj := [("organization_id", JsonVal.str "org1")]

/-- The `timestamp` value stored in the most recently appended record, if
any. -/
def lastTimestamp (st : ServerState) : Option JsonVal :=
  match st.received_webhooks.getLast? with
  | some r => r.lookup "timestamp"
  | none => none

/-- C1: for every body that validates to a payload `p`, POSTing it grows the
store by exactly one record, and the last element of a subsequent
`GET /webhook/received` is `p`'s three fields plus the server-assigned
timestamp drawn at the append. -/
theorem C1_post_appends_payload (body : JsonObj) (st : ServerState)
    (p : PreassessmentWebhookPayload) (h : parsePayload body = Except.ok p) :
    (post_preassessment body st).2.received_webhooks.length
        = st.received_webhooks.length + 1 ∧
    (get_received_webhooks (post_preassessment body st).2).1.webhooks.getLast?
        = some (webhook_data p (st.time (st.calls + 1))) := by
  simp [post_preassessment, h, receive_preassessment_webhook, utcnow,
        get_received_webhooks, List.getLast?_concat]

/-- Witness for C1 at the demo body on a fresh process. -/
theorem C1_witness :
    (post_preassessment demoBody st0).2.received_webhooks.length
        = st0.received_webhooks.length + 1 ∧
    (get_received_webhooks (post_preassessment demoBody st0).2).1.webhooks.getLast?
        = some (webhook_data demoPayload (st0.time (st0.calls + 1))) :=
  C1_post_appends_payload demoBody st0 demoPayload rfl

/-- C2: a body on which some required field is missing or wrong-typed is
answered with the validation-error (422) response naming the failed fields,
and the state — the store included — is untouched. -/
theorem C2_invalid_body_rejected (body : JsonObj) (st : ServerState)
    (h : ∃ n ∈ requiredFields, validateStr body n = none) :
    (post_preassessment body st).1 =
      PostResponse.validationError
        (requiredFields.filter (fun n => (validateStr body n).isNone)) ∧
    requiredFields.filter (fun n => (validateStr body n).isNone) ≠ [] ∧
    (post_preassessment body st).2 = st := by
  obtain ⟨n, hn, hv⟩ := h
  have hne : requiredFields.filter (fun m => (validateStr body m).isNone) ≠ [] := by
    intro hempty
    have hmem : n ∈ requiredFields.filter (fun m => (validateStr body m).isNone) :=
      List.mem_filter.mpr ⟨hn, by simp [hv]⟩
    rw [hempty] at hmem
    exact List.not_mem_nil n hmem
  have herr : ∃ errs, parsePayload body = Except.error errs := by
    simp only [requiredFields, List.mem_cons, List.not_mem_nil, or_false] at hn
    rcases ho : validateStr body "organization_id" with _ | o <;>
      rcases hpa : validateStr body "preassessment_id" with _ | pa <;>
        rcases hr : validateStr body "regulation_id" with _ | r <;>
          simp only [parsePayload, ho, hpa, hr] <;>
            first
              | exact ⟨_, rfl⟩
              | (rcases hn with rfl | rfl | rfl <;> simp_all)
  obtain ⟨errs, herr⟩ := herr
  exact ⟨by simp [post_preassessment, herr], hne, by simp [post_preassessment, herr]⟩

/-- Witness for C2 at a body missing two required fields. -/
theorem C2_witness :
    (post_preassessment badBody st0).1 =
      PostResponse.validationError
        (requiredFields.filter (fun n => (validateStr badBody n).isNone)) ∧
    requiredFields.filter (fun n => (validateStr badBody n).isNone) ≠ [] ∧
    (post_preassessment badBody st0).2 = st0 :=
  C2_invalid_body_rejected badBody st0 ⟨"preassessment_id", by decide, rfl⟩

/-- C3: on every prior state, DELETE empties the store, reports the exact
prior size in its message, and a subsequent GET reports zero records. -/
theorem C3_clear_empties_and_reports (st : ServerState) :
    (clear_received_webhooks st).2.received_webhooks = [] ∧
    (clear_received_webhooks st).1 =
      ⟨"success", "Cleared " ++ toString st.received_webhooks.length ++ " webhooks"⟩ ∧
    (get_received_webhooks (clear_received_webhooks st).2).1.total_received = 0 :=
  ⟨rfl, rfl, rfl⟩

/-- The record invariant claimed by the spec: the three identifier fields
present as NON-EMPTY strings, plus a server-assigned `received_at`
timestamp field. -/
def claimedRecordInvariant (r : JsonObj) : Prop :=
  (∃ s, r.lookup "organization_id" = some (JsonVal.str s) ∧ s ≠ "") ∧
  (∃ s, r.lookup "preassessment_id" = some (JsonVal.str s) ∧ s ≠ "") ∧
  (∃ s, r.lookup "regulation_id" = some (JsonVal.str s) ∧ s ≠ "") ∧
  (∃ t, r.lookup "received_at" = some (JsonVal.str (isoformat t)))

/-- The record invariant the code actually maintains: the three identifier
fields present as strings (the empty string is accepted), plus a
server-assigned timestamp stored under the key `timestamp`. -/
def recordWellFormed (r : JsonObj) : Prop :=
  (∃ s, r.lookup "organization_id" = some (JsonVal.str s)) ∧
  (∃ s, r.lookup "preassessment_id" = some (JsonVal.str s)) ∧
  (∃ s, r.lookup "regulation_id" = some (JsonVal.str s)) ∧
  (∃ t, r.lookup "timestamp" = some (JsonVal.str (isoformat t)))

/-- A valid body whose `organization_id` is the empty string: pydantic `str`
fields accept it. -/
def emptyOrgBody : JsonObj :=
  [("organization_id", JsonVal.str ""),
   ("preassessment_id", JsonVal.str "pa1"),
   ("regulation_id", JsonVal.str "reg1")]

/-- The state after POSTing `emptyOrgBody` to a fresh process. -/
def badState : ServerState := (post_preassessment emptyOrgBody st0).2

/-- Counterexample to C4: a reachable state whose store holds a record with
an empty `organization_id` (and whose timestamp key is `timestamp`, not
`received_at`), violating the claimed invariant. -/
theorem C4_counterexample :
    Reachable badState ∧
    ¬ (∀ r ∈ badState.received_webhooks, claimedRecordInvariant r) := by
  constructor
  · exact Reachable.post emptyOrgBody st0 (Reachable.init (fun k => k))
  · intro hinv
    have hr := hinv (webhook_data ⟨"", "pa1", "reg1"⟩ 1) (by decide)
    obtain ⟨⟨s, hs, hne⟩, -⟩ := hr
    apply hne
    have h0 : (webhook_data ⟨"", "pa1", "reg1"⟩ 1).lookup "organization_id"
        = some (JsonVal.str "") := by decide
    rw [h0] at hs
    injection hs with h1
    injection h1 with h2
    exact h2.symm

/-- C4 as amended: in every reachable state, every stored record carries the
three identifier fields as strings (possibly empty) plus a server-assigned
timestamp under the key `timestamp`. -/
theorem C4_store_records_well_formed (st : ServerState) (h : Reachable st) :
    ∀ r ∈ st.received_webhooks, recordWellFormed r := by
  induction h with
  | init time => intro r hr; exact absurd hr (List.not_mem_nil r)
  | post body st h ih =>
      intro r hr
      rcases hp : parsePayload body with errs | p
      · simp only [post_preassessment, hp] at hr
        exact ih r hr
      · simp only [post_preassessment, hp, receive_preassessment_webhook,
          utcnow, List.mem_append, List.mem_singleton] at hr
        rcases hr with hr | hr
        · exact ih r hr
        · subst hr
          exact ⟨⟨p.organization_id, rfl⟩, ⟨p.preassessment_id, rfl⟩,
                 ⟨p.regulation_id, rfl⟩, ⟨st.time (st.calls + 1), rfl⟩⟩
  | clear st h ih =>
      intro r hr
      simp only [clear_received_webhooks] at hr
      exact absurd hr (List.not_mem_nil r)
  | get st h ih => intro r hr; exact ih r hr
  | health st h ih => intro r hr; exact ih r hr

/-- The state after one successful demo POST to a fresh process. -/
def goodState : ServerState := (post_preassessment demoBody st0).2

/-- Witness for the amended C4 at the record stored by a demo POST. -/
theorem C4_witness : recordWellFormed (webhook_data demoPayload 1) :=
  C4_store_records_well_formed goodState
    (Reachable.post demoBody st0 (Reachable.init (fun k => k)))
    (webhook_data demoPayload 1) (by decide)

/-- Counterexample to C5: on a fresh process, the `received_at` of the
success response is NOT the timestamp stored in the record that the same
request appended — the handler draws a later, separate `utcnow` value for
the response. -/
theorem C5_counterexample :
    lastTimestamp (receive_preassessment_webhook demoPayload st0).2
      ≠ some (JsonVal.str
          ((receive_preassessment_webhook demoPayload st0).1.received_at)) := by
  decide

/-- C5 as amended: the success response echoes the payload, its
`received_at` is the instant of the handler's third `utcnow` call (drawn
after the append), while the stored record's timestamp is the instant of
the second call — so the two agree only when those two calls return the
same instant. -/
theorem C5_response_timestamp_fresh (p : PreassessmentWebhookPayload)
    (st : ServerState) :
    (receive_preassessment_webhook p st).1.received_at
      = isoformat (st.time (st.calls + 2)) ∧
    lastTimestamp (receive_preassessment_webhook p st).2
      = some (JsonVal.str (isoformat (st.time (st.calls + 1)))) ∧
    (receive_preassessment_webhook p st).1.payload = p := by
  refine ⟨rfl, ?_, rfl⟩
  have h : (receive_preassessment_webhook p st).2.received_webhooks
      = st.received_webhooks ++ [webhook_data p (st.time (st.calls + 1))] := rfl
  rw [lastTimestamp, h, List.getLast?_concat]
  rfl

/-- Counterexample to C6: an unexpected failure after the append (for
example while building the response) is answered with the 500 response, yet
the record has already been stored — the store is NOT unchanged on error. -/
theorem C6_counterexample :
    (receive_webhook_faulty demoPayload (some FaultPoint.afterAppend)
        "boom" st0).1
      = PostResponse.serverError "Failed to process webhook: boom" ∧
    (receive_webhook_faulty demoPayload (some FaultPoint.afterAppend)
        "boom" st0).2.received_webhooks
      ≠ st0.received_webhooks := by
  decide

/-- C6 as amended: every unexpected failure is answered with a 500 response
whose detail is the fixed prefix plus the error text; the store is
unchanged when the failure hits before the append, but a failure after the
append leaves the newly created record in the store. -/
theorem C6_server_error_paths (p : PreassessmentWebhookPayload) (e : String)
    (st : ServerState) :
    receive_webhook_faulty p (some FaultPoint.beforeAppend) e st
      = (PostResponse.serverError ("Failed to process webhook: " ++ e), st) ∧
    (receive_webhook_faulty p (some FaultPoint.afterAppend) e st).1
      = PostResponse.serverError ("Failed to process webhook: " ++ e) ∧
    (receive_webhook_faulty p (some FaultPoint.afterAppend) e st).2.received_webhooks
      = st.received_webhooks ++ [webhook_data p (st.time (st.calls + 1))] :=
  ⟨rfl, rfl, rfl⟩

/-- C7: on every state, the count reported by `GET /health` equals the
`total_received` of `GET /webhook/received`, and both equal the number of
stored records. -/
theorem C7_health_matches_received (st : ServerState) :
    (health_check st).1.webhooks_received
        = (get_received_webhooks st).1.total_received ∧
    (health_check st).1.webhooks_received = st.received_webhooks.length ∧
    (get_received_webhooks st).1.total_received = st.received_webhooks.length :=
  ⟨rfl, rfl, rfl⟩

/-- C8: the two GET endpoints have no side effects — each returns the state
it was given, the store included. -/
theorem C8_reads_no_side_effects (st : ServerState) :
    (get_received_webhooks st).2 = st ∧ (health_check st).2 = st :=
  ⟨rfl, rfl⟩

/-- C9: the store is append-only under POST — every previously stored
record keeps its position, the new record goes at the end, and after two
successful POSTs the GET endpoint reports two more records, in insertion
order. -/
theorem C9_store_append_only (body₁ body₂ : JsonObj) (st : ServerState)
    (p₁ p₂ : PreassessmentWebhookPayload)
    (h₁ : parsePayload body₁ = Except.ok p₁)
    (h₂ : parsePayload body₂ = Except.ok p₂) :
    (∀ i, i < st.received_webhooks.length →
      (post_preassessment body₁ st).2.received_webhooks[i]?
        = st.received_webhooks[i]?) ∧
    (post_preassessment body₁ st).2.received_webhooks
      = st.received_webhooks ++ [webhook_data p₁ (st.time (st.calls + 1))] ∧
    (post_preassessment body₂ (post_preassessment body₁ st).2).2.received_webhooks
      = st.received_webhooks
        ++ [webhook_data p₁ (st.time (st.calls + 1)),
            webhook_data p₂ (st.time (st.calls + 4))] ∧
    (get_received_webhooks
        (post_preassessment body₂ (post_preassessment body₁ st).2).2).1.total_received
      = st.received_webhooks.length + 2 := by
  have e₁ : (post_preassessment body₁ st).2
      = ⟨st.received_webhooks ++ [webhook_data p₁ (st.time (st.calls + 1))],
         st.time, st.calls + 3⟩ := by
    simp [post_preassessment, h₁, receive_preassessment_webhook, utcnow]
  have e₂ : (post_preassessment body₂ (post_preassessment body₁ st).2).2
      = ⟨st.received_webhooks
          ++ [webhook_data p₁ (st.time (st.calls + 1)),
              webhook_data p₂ (st.time (st.calls + 4))],
         st.time, st.calls + 6⟩ := by
    rw [e₁]
    simp [post_preassessment, h₂, receive_preassessment_webhook, utcnow]
  refine ⟨?_, ?_, ?_, ?_⟩
  · intro i hi
    rw [e₁]
    exact List.getElem?_append_left hi
  · rw [e₁]
  · rw [e₂]
  · rw [e₂]
    simp [get_received_webhooks]

/-- Witness for C9 at the two demo bodies on a fresh process. -/
theorem C9_witness :
    (∀ i, i < st0.received_webhooks.length →
      (post_preassessment demoBody st0).2.received_webhooks[i]?
        = st0.received_webhooks[i]?) ∧
    (post_preassessment demoBody st0).2.received_webhooks
      = st0.received_webhooks ++ [webhook_data demoPayload (st0.time (st0.calls + 1))] ∧
    (post_preassessment demoBody2 (post_preassessment demoBody st0).2).2.received_webhooks
      = st0.received_webhooks
        ++ [webhook_data demoPayload (st0.time (st0.calls + 1)),
            webhook_data demoPayload2 (st0.time (st0.calls + 4))] ∧
    (get_received_webhooks
        (post_preassessment demoBody2 (post_preassessment demoBody st0).2).2).1.total_received
      = st0.received_webhooks.length + 2 :=
  C9_store_append_only demoBody demoBody2 st0 demoPayload demoPayload2 rfl rfl

/-- C10: clearing is total and idempotent — DELETE on an empty store
succeeds reporting zero cleared, and a second DELETE right after a first
one leaves the same empty store and reports zero cleared. -/
theorem C10_clear_idempotent (st : ServerState) :
    (st.received_webhooks = [] →
      (clear_received_webhooks st).1 = ⟨"success", "Cleared 0 webhooks"⟩) ∧
    (clear_received_webhooks (clear_received_webhooks st).2).2.received_webhooks
      = (clear_received_webhooks st).2.received_webhooks ∧
    (clear_received_webhooks (clear_received_webhooks st).2).1
      = ⟨"success", "Cleared 0 webhooks"⟩ := by
  have hmsg : "Cleared " ++ toString (List.length ([] : List JsonObj)) ++ " webhooks"
      = "Cleared 0 webhooks" := by decide
  refine ⟨?_, rfl, ?_⟩
  · intro h
    simp [clear_received_webhooks, h]
    decide
  · show ClearResponse.mk "success"
        ("Cleared " ++ toString (List.length ([] : List JsonObj)) ++ " webhooks") = _
    rw [hmsg]

/-- Witness for C10 on a fresh (empty-store) process. -/
theorem C10_witness :
    (clear_received_webhooks st0).1 = ⟨"success", "Cleared 0 webhooks"⟩ ∧
    (clear_received_webhooks (clear_received_webhooks st0).2).2.received_webhooks
      = (clear_received_webhooks st0).2.received_webhooks ∧
    (clear_received_webhooks (clear_received_webhooks st0).2).1
      = ⟨"success", "Cleared 0 webhooks"⟩ :=
  ⟨(C10_clear_idempotent st0).1 rfl, (C10_clear_idempotent st0).2.1,
   (C10_clear_idempotent st0).2.2⟩

end PreassessmentWebhook
